import Mathlib

/-!
Shallow embedding of the polling / read-loop logic of the
zhinst/labone-api-examples repository.

The examples drive remote vendor modules (sweeper, data-acquisition,
scope, multi-device sync) through a subscribe / execute / poll / read /
finish cycle.  Time is discretised into ticks: one tick is one sleep
interval of the corresponding Python loop.  The remote module is an
oracle: its finished flag, record count, progress fraction and the
bursts delivered by intermediate reads are functions of the tick.
Loops are total via an explicit fuel argument; running out of fuel
yields none (the Python loops have no such bound, so every theorem is
stated for sufficient fuel).
-/

namespace LabOneExamples

/-! ### Sweeper poll loop, src/common/python/example_sweeper.py lines 196-213

    start = time.time(); timeout = 60
    while not sweeper.finished():
        time.sleep(0.2)
        progress = sweeper.progress()
        if (time.time() - start) > timeout:
            sweeper.finish()

One tick = 0.2 s, so the 60 s timeout is 300 ticks; after the sleep of
iteration k the elapsed time is k + 1 ticks.  The loop body contains no
raise statement, hence the result is always an Except.ok; the returned
pair instruments the run with the index of the check at which the loop
exited and the number of sweeper.finish() calls issued inside the loop
(the Python code has these only as side effects). -/

def sweeper_timeout_ticks : Nat := 300

def sweeper_loop (fin : Nat → Bool) (timeout : Nat) :
    Nat → Nat → Nat → Option (Except String (Nat × Nat))
  | 0, _, _ => none
  | fuel + 1, k, nfin =>
    if fin k then some (Except.ok (k, nfin))
    else sweeper_loop fin timeout fuel (k + 1)
      (if k + 1 > timeout then nfin + 1 else nfin)

/-! ### Multi-device DAQ poll loop,
src/common/python/example_multidevice_data_acquisition.py lines 270-280

    timeout = 20
    t0_measurement = time.time()
    while not daq_module.finished():
        if time.time() - t0_measurement > timeout:
            raise Exception("Timeout after ... recording not complete. ...")
        time.sleep(1)

One tick = 1 s; at the check of iteration k the elapsed time is k ticks
(the sleep follows the timeout check).  On normal exit the result
carries the index of the check at which finished() became true. -/

def multidevice_timeout_msg : String :=
  "Timeout - recording not complete. Are the streaming nodes enabled? Has a valid signal_path been specified?"

def multidevice_loop (fin : Nat → Bool) (timeout : Nat) :
    Nat → Nat → Option (Except String Nat)
  | 0, _ => none
  | fuel + 1, k =>
    if fin k then some (Except.ok k)
    else if k > timeout then some (Except.error multidevice_timeout_msg)
    else multidevice_loop fin timeout fuel (k + 1)

/-! ### Continuous DAQ poll loop,
src/common/python/example_data_acquisition_continuous.py lines 226-242

    timeout = 1.5 * total_duration
    t0_measurement = time.time()
    while not daq_module.finished():
        t0_loop = time.time()
        if time.time() - t0_measurement > timeout:
            raise Exception("Timeout after ... - recording not complete. ...")
        data, ts0 = read_data_update_plot(data, ts0)   -- appends new bursts
        time.sleep(max(0, t_update - ...))

One tick = one loop body (of duration about t_update); at the check of
iteration k the elapsed time is k ticks.  Bursts are abstract record
identifiers (Nat); bursts k is the list of new bursts appended to the
data dictionary by the read of iteration k.  The Python exception
carries only a message; the timeoutRaise constructor additionally
instruments the value of the data variable at the moment the exception
is raised. -/

inductive ContRes where
  | finishedOk (data : List Nat)
  | timeoutRaise (msg : String) (dataAtRaise : List Nat)
deriving DecidableEq

def daq_continuous_timeout_msg : String :=
  "Timeout - recording not complete. Are the streaming nodes enabled? Has a valid signal_path been specified?"

def daq_continuous_loop (fin : Nat → Bool) (bursts : Nat → List Nat)
    (timeout : Nat) : Nat → Nat → List Nat → Option ContRes
  | 0, _, _ => none
  | fuel + 1, k, acc =>
    if fin k then some (ContRes.finishedOk acc)
    else if k > timeout then
      some (ContRes.timeoutRaise daq_continuous_timeout_msg acc)
    else daq_continuous_loop fin bursts timeout fuel (k + 1) (acc ++ bursts k)

/-- The records accumulated by the continuous loop after the bodies of
iterations 0, ..., k-1 have run. -/
def acc_up_to (bursts : Nat → List Nat) (k : Nat) : List Nat :=
  ((List.range k).map bursts).flatten

/-! ### Scope poll loop, src/common/python/example_scope.py lines 447-480
(get_scope_records)

    start = time.time(); timeout = 30
    records = 0; progress = 0
    while (records < num_records) or (progress < 1.0):
        time.sleep(0.5)
        records = scopeModule.getInt("records")
        progress = scopeModule.progress()[0]
        if (time.time() - start) > timeout:
            break

One tick = 0.5 s, so the 30 s timeout is 60 ticks; after the sleep of
iteration k the elapsed time is k + 1 ticks.  The progress fraction is
modelled as a rational.  The loop contains no raise at all: it exits
either because the while condition became false (completed) or through
the timeout break (timedOut); in both cases the caller proceeds to
read() and finish(). -/

inductive ScopeExit where
  | completed (records : Nat) (progress : ℚ)
  | timedOut (records : Nat) (progress : ℚ)
deriving DecidableEq

def scope_timeout_ticks : Nat := 60

def scope_loop (recordsAt : Nat → Nat) (progressAt : Nat → ℚ)
    (num_records timeout : Nat) : Nat → Nat → Nat → ℚ → Option ScopeExit
  | 0, _, _, _ => none
  | fuel + 1, k, records, progress =>
    if records < num_records ∨ progress < 1 then
      if k + 1 > timeout then
        some (ScopeExit.timedOut (recordsAt k) (progressAt k))
      else
        scope_loop recordsAt progressAt num_records timeout fuel (k + 1)
          (recordsAt k) (progressAt k)
    else some (ScopeExit.completed records progress)

/-! ### Post-read assertions of the sweeper and DAQ-edge examples,
src/common/python/example_sweeper.py lines 237-251 and
src/common/python/example_data_acquisition_edge.py lines 291-306

    assert data, "read() returned an empty data dictionary, ..."
    assert path in data, "No sweep data in data dictionary ..."
    samples = data[path]
    assert len(samples) == loopcount, "... unexpected number of sweeps ..."

The read() result is modelled as an association list from node paths to
lists of abstract records. -/

def assert_empty_msg : String :=
  "AssertionError: read() returned an empty data dictionary, did you subscribe to any paths?"

def assert_missing_key_msg : String :=
  "AssertionError: no data recorded: data dictionary has no key for the subscribed path"

def assert_count_msg : String :=
  "AssertionError: unexpected number of entries returned for the subscribed path"

def validate_read_data {α : Type} (data : List (String × List α))
    (path : String) (n : Nat) : Except String (List α) :=
  if data.isEmpty then Except.error assert_empty_msg
  else
    match data.lookup path with
    | none => Except.error assert_missing_key_msg
    | some samples =>
      if samples.length = n then Except.ok samples
      else Except.error assert_count_msg

/-! ### Post-read assertion of the scope example,
src/common/python/example_scope.py lines 271-273

    assert wave_nodepath in data_no_trig, "The Scope Module did not return data for ..."
-/

def scope_assert_msg : String :=
  "AssertionError: The Scope Module did not return data for the wave node path"

def scope_assert_wave {α : Type} (data : List (String × List α))
    (path : String) : Except String Unit :=
  match data.lookup path with
  | some _ => Except.ok ()
  | none => Except.error scope_assert_msg

/-! ### Scope record flag checks,
src/common/python/example_scope.py lines 492-518 (check_scope_record_flags)

Each scope record carries an integer flags field, a totalsamples field
and one wave array per channel; only the lengths of the wave arrays
matter to the function, so a record is modelled by those lengths.  For
every record the function prints a warning for each set flag bit (mask
1: data loss, mask 2: missed trigger, mask 4: transfer failure) and
then asserts that every wave length equals totalsamples.  Printed
warnings are modelled as the returned list of strings; an assertion
failure aborts the function, discarding the warnings printed up to that
point from the model result. -/

structure ScopeRecord where
  flags : Nat
  totalsamples : Nat
  waveLengths : List Nat
deriving DecidableEq

def warn_dataloss : String := "Warning: scope record flag indicates dataloss."

def warn_missed_trigger : String := "Warning: scope record indicates missed trigger."

def warn_transfer_failure : String :=
  "Warning: scope record indicates transfer failure (corrupt data)."

def assert_wave_size_msg : String :=
  "AssertionError: scope record size does not match totalsamples."

def record_flag_warnings (flags : Nat) : List String :=
  (if flags &&& 1 ≠ 0 then [warn_dataloss] else []) ++
  (if flags &&& 2 ≠ 0 then [warn_missed_trigger] else []) ++
  (if flags &&& 4 ≠ 0 then [warn_transfer_failure] else [])

def check_scope_record_flags : List ScopeRecord → Except String (List String)
  | [] => Except.ok []
  | r :: rest =>
    if r.waveLengths.all (fun L => L = r.totalsamples) then
      match check_scope_record_flags rest with
      | Except.ok ws => Except.ok (record_flag_warnings r.flags ++ ws)
      | Except.error e => Except.error e
    else Except.error assert_wave_size_msg

/-! ### Save-to-file event traces

src/common/python/example_sweeper.py lines 215-233 (save branch):

    sweeper.set("save/save", int(save))
    save_done = sweeper.getInt("save/save")
    while save_done != 0:
        save_done = sweeper.getInt("save/save")
    ...
    data = sweeper.read(return_flat_dict)

src/common/python/example_data_acquisition_edge.py lines 271-289:

    daq_module.set("save/save", save)
    ...
    data = daq_module.read(return_flat_data_dict)
    ...
    save_done = daq_module.getInt("save/save")
    while save_done != 0:
        save_done = daq_module.getInt("save/save")

Each script is abstracted to the trace of its save-related events: the
save request, each poll of the save/save flag together with the value
the flag returned, and the read() call.  The flag oracle gives the
value returned by the k-th poll. -/

inductive SaveEv where
  | setSave (v : Nat)
  | pollSave (v : Nat)
  | readData
deriving DecidableEq

def poll_save_flag (flag : Nat → Nat) : Nat → Nat → Option (List SaveEv)
  | 0, _ => none
  | fuel + 1, k =>
    if flag k = 0 then some [SaveEv.pollSave 0]
    else (poll_save_flag flag fuel (k + 1)).map
      (fun tr => SaveEv.pollSave (flag k) :: tr)

def sweeper_save_then_read (flag : Nat → Nat) (fuel : Nat) :
    Option (List SaveEv) :=
  (poll_save_flag flag fuel 0).map
    (fun polls => SaveEv.setSave 1 :: (polls ++ [SaveEv.readData]))

def edge_save_then_read (flag : Nat → Nat) (fuel : Nat) :
    Option (List SaveEv) :=
  (poll_save_flag flag fuel 0).map
    (fun polls => SaveEv.setSave 1 :: SaveEv.readData :: polls)

def is_zero_poll (e : SaveEv) : Bool :=
  match e with
  | SaveEv.pollSave v => v = 0
  | _ => false

def is_read_event (e : SaveEv) : Bool :=
  match e with
  | SaveEv.readData => true
  | _ => false

def first_idx (p : SaveEv → Bool) : List SaveEv → Option Nat
  | [] => none
  | e :: rest => if p e then some 0 else (first_idx p rest).map (· + 1)

/-- A poll of save/save that returned 0 occurs strictly before the
read() event in the trace. -/
def zero_poll_before_read (tr : List SaveEv) : Bool :=
  match first_idx is_zero_poll tr, first_idx is_read_event tr with
  | some i, some j => decide (i < j)
  | _, _ => false

/-- Modelled from the spec: the save/save completion flag of the vendor
module.  The module itself is outside the repository; per the spec the
flag is set to 1 by a save request and transitions monotonically to 0
when the background save completes (at tick c), never returning to 1
without a new save request. -/
def save_flag_model (c : Nat) (t : Nat) : Nat :=
  if t < c then 1 else 0

/-- Modelled from the spec: the read() result of a vendor module.  The
module is outside the repository; per the spec, failing to subscribe
before execute yields an empty result with no error signaled by the
module itself, while subscribing first yields the collected records
under the subscribed path. -/
def module_read {α : Type} (subscribedBeforeExecute : Bool) (path : String)
    (collected : List α) : List (String × List α) :=
  if subscribedBeforeExecute then [(path, collected)] else []

/-! ### Module lifecycle

Modelled from the spec: the vendor module lifecycle (the module runs
inside the closed data server, outside the repository).  Per the spec,
execute() transitions the module from idle to running and resets
progress, finish() releases the module resources without raising even
when the module is already finished, and only after finish() can the
module be re-armed via execute() again. -/

inductive ModPhase where
  | idle
  | running
  | finished
deriving DecidableEq

/-- Modelled from the spec: finish() never raises, from any phase,
and leaves the module finished. -/
def mod_finish (_ : ModPhase) : Except String ModPhase :=
  Except.ok ModPhase.finished

/-- Modelled from the spec: execute() arms the module from idle or from
finished (re-arm); executing a still-running module is not permitted
(re-arm is possible only after finish). -/
def mod_execute (s : ModPhase) : Except String ModPhase :=
  match s with
  | ModPhase.running => Except.error "module is already running"
  | _ => Except.ok ModPhase.running

inductive ModCmd where
  | execute
  | finish
deriving DecidableEq

def apply_commands : List ModCmd → ModPhase → Except String ModPhase
  | [], s => Except.ok s
  | c :: rest, s =>
    match (match c with
           | ModCmd.execute => mod_execute s
           | ModCmd.finish => mod_finish s) with
    | Except.ok s2 => apply_commands rest s2
    | Except.error e => Except.error e

/-- The command sequence issued on the single Scope Module instance by
example_scope.py run_example: get_scope_records is called three times
(triggering disabled, enabled, FFT mode), each call doing execute()
then finish(). -/
def scope_example_cmds : List ModCmd :=
  [ModCmd.execute, ModCmd.finish, ModCmd.execute, ModCmd.finish,
   ModCmd.execute, ModCmd.finish]

def run_finishes : Nat → ModPhase → Except String ModPhase
  | 0, s => Except.ok s
  | n + 1, s =>
    match mod_finish s with
    | Except.ok s2 => run_finishes n s2
    | Except.error e => Except.error e

/-! ### Version check, src/utils/python/cli_utils.py lines 11-68

extract_version operates on the version string captured from the
docstring by the regular expression "LabOne Version >= ([0-9\.]*)", so
the string consists of digit and dot characters.  The two format tests
are

    major_minor_format       = bool(re.match(r"^\d\d\.\d\d$", version))
    major_minor_build_format = bool(re.match(r"^\d\d\.\d\d.\d+$", version))

Note that the dot after the second \d\d in the build format is an
unescaped regex dot and matches any character.  In the two-component
branch min_build defaults to 0; in the three-component branch the code
runs map(int, version.split(".")) and unpacks exactly three values, so
a version matching the build format through a non-dot character in that
position raises a ValueError at the unpack.  check_version then raises
if and only if the minimum tuple compares (lexicographically, as Python
tuples compare) greater than or equal to the installed tuple. -/

def two_digit_val (a b : Char) : Nat :=
  (a.toNat - 48) * 10 + (b.toNat - 48)

def digits_val (s : List Char) : Nat :=
  s.foldl (fun n c => n * 10 + (c.toNat - 48)) 0

def mm_format (s : List Char) : Bool :=
  match s with
  | [a, b, p, c, d] =>
    a.isDigit && b.isDigit && p = '.' && c.isDigit && d.isDigit
  | _ => false

def mmb_format (s : List Char) : Bool :=
  match s with
  | a :: b :: p :: c :: d :: _ :: e :: rest =>
    a.isDigit && b.isDigit && p = '.' && c.isDigit && d.isDigit &&
      (e :: rest).all Char.isDigit
  | _ => false

def wrong_format_msg : String :=
  "Wrong ziPython version format. Supported format: MAJOR.MINOR or MAJOR.MINOR.BUILD"

def value_error_msg : String :=
  "ValueError: not enough values to unpack the version components"

def extract_version (version : List Char) : Except String (Nat × Nat × Nat) :=
  if mm_format version then
    match version with
    | a :: b :: _ :: c :: d :: _ =>
      Except.ok (two_digit_val a b, two_digit_val c d, 0)
    | _ => Except.error wrong_format_msg
  else if mmb_format version then
    match version with
    | a :: b :: _ :: c :: d :: x :: rest =>
      if x = '.' then
        Except.ok (two_digit_val a b, two_digit_val c d, digits_val rest)
      else Except.error value_error_msg
    | _ => Except.error value_error_msg
  else Except.error wrong_format_msg

/-- Python lexicographic comparison of 3-tuples: a >= b. -/
def tuple_ge (a b : Nat × Nat × Nat) : Bool :=
  (b.1 < a.1) ||
    (a.1 = b.1 &&
      ((b.2.1 < a.2.1) || (a.2.1 = b.2.1 && b.2.2 ≤ a.2.2)))

def version_reject_msg : String :=
  "Example requires a greater ziPython version. Please visit the Zurich Instruments website to update."

def check_version (version : List Char) (installed : Nat × Nat × Nat) :
    Except String Unit :=
  match extract_version version with
  | Except.error e => Except.error e
  | Except.ok m =>
    if tuple_ge m installed then Except.error version_reject_msg
    else Except.ok ()

/-! ### Concrete oracles used by counterexamples and witnesses -/

/-- Sweep never reports finished on its own; after the forced finish
calls that start once the 300-tick timeout has elapsed, finished()
returns true from check 305 on. -/
def c1_fin : Nat → Bool := fun k => decide (305 ≤ k)

/-- One burst (record 7) is delivered by the read of iteration 0 and
nothing afterwards. -/
def c2_bursts : Nat → List Nat := fun k => if k = 0 then [7] else []

/-- The scope module reports the target record count from the first
read on, but the progress of the current segment stays at one half. -/
def c4_records : Nat → Nat := fun _ => 1

def c4_progress : Nat → ℚ := fun _ => mkRat 1 2

/-- The save flag reads 1 on the first poll and 0 afterwards. -/
def c5_flag : Nat → Nat := fun k => if k = 0 then 1 else 0

/-- A sweep that never finishes on its own with a 3-tick timeout:
finished() becomes true from check 8 on, after several forced finish
calls. -/
def c9_fin : Nat → Bool := fun k => decide (8 ≤ k)

/-- Oracle for witnesses: finished() true from check 2 on. -/
def w_fin2 : Nat → Bool := fun k => decide (2 ≤ k)

/-- Oracle for witnesses: never finished. -/
def w_fin_never : Nat → Bool := fun _ => false

/-- Oracle for witnesses: one burst (record 3) per iteration. -/
def w_bursts : Nat → List Nat := fun k => [k]

/-- Oracle for witnesses: record count reaches 2 from tick 1 on. -/
def w_records : Nat → Nat := fun k => if k = 0 then 1 else 2

/-- Oracle for witnesses: progress reaches 1 from tick 1 on. -/
def w_progress : Nat → ℚ := fun k => if k = 0 then mkRat 1 2 else 1

/-- Oracle for witnesses: the save flag completes at tick 2. -/
def w_flag : Nat → Nat := save_flag_model 2

/-- Oracle for witnesses: finished() true from check 3 on. -/
def w_fin3 : Nat → Bool := fun k => decide (3 ≤ k)

/-! ## Helper lemmas about the loops -/

/-- The sweeper poll loop contains no raise statement: whenever it
terminates, its result is a normal exit. -/
theorem sweeper_loop_no_raise (fin : Nat → Bool) (timeout : Nat) :
    ∀ (fuel k nfin : Nat) (r : Except String (Nat × Nat)),
      sweeper_loop fin timeout fuel k nfin = some r → ∃ v, r = Except.ok v := by
  intro fuel
  induction fuel with
  | zero => intro k nfin r h; simp [sweeper_loop] at h
  | succ f ih =>
    intro k nfin r h
    simp only [sweeper_loop] at h
    by_cases hf : fin k
    · simp only [hf, if_true, Option.some.injEq] at h
      exact ⟨(k, nfin), h.symm⟩
    · simp only [hf, if_false, Bool.false_eq_true] at h
      exact ih _ _ _ h

/-- If finished() first returns true at check k + d, the sweeper loop
started at check k exits normally at that check. -/
theorem sweeper_loop_first_exit (fin : Nat → Bool) (timeout : Nat) :
    ∀ (d fuel k nfin : Nat), fin (k + d) = true →
      (∀ j, j < d → fin (k + j) = false) → d < fuel →
      ∃ nf, sweeper_loop fin timeout fuel k nfin =
        some (Except.ok (k + d, nf)) := by
  intro d
  induction d with
  | zero =>
    intro fuel k nfin hfin _ hfuel
    obtain ⟨f, rfl⟩ := Nat.exists_eq_succ_of_ne_zero (Nat.pos_iff_ne_zero.mp hfuel)
    refine ⟨nfin, ?_⟩
    simp only [sweeper_loop, Nat.add_zero] at hfin ⊢
    simp [hfin]
  | succ d ih =>
    intro fuel k nfin hfin hfirst hfuel
    obtain ⟨f, rfl⟩ := Nat.exists_eq_succ_of_ne_zero
      (Nat.pos_iff_ne_zero.mp (Nat.lt_of_le_of_lt (Nat.zero_le _) hfuel))
    have h0 : fin k = false := by
      have := hfirst 0 (Nat.succ_pos d); simpa using this
    simp only [sweeper_loop, h0, Bool.false_eq_true, if_false]
    have hfin2 : fin (k + 1 + d) = true := by
      have : k + 1 + d = k + (d + 1) := by omega
      rw [this]; exact hfin
    have hfirst2 : ∀ j, j < d → fin (k + 1 + j) = false := by
      intro j hj
      have : k + 1 + j = k + (j + 1) := by omega
      rw [this]; exact hfirst (j + 1) (by omega)
    have ⟨nf, hnf⟩ := ih f (k + 1)
      (if k + 1 > timeout then nfin + 1 else nfin) hfin2 hfirst2 (by omega)
    refine ⟨nf, ?_⟩
    rw [hnf]
    congr 3
    omega

/-- If finished() first returns true at check k + d and the timeout has
not yet elapsed there, the multi-device DAQ loop started at check k
exits normally, raising nothing. -/
theorem multidevice_loop_first_exit (fin : Nat → Bool) (timeout : Nat) :
    ∀ (d fuel k : Nat), fin (k + d) = true →
      (∀ j, j < d → fin (k + j) = false) → k + d ≤ timeout → d < fuel →
      multidevice_loop fin timeout fuel k = some (Except.ok (k + d)) := by
  intro d
  induction d with
  | zero =>
    intro fuel k hfin _ _ hfuel
    obtain ⟨f, rfl⟩ := Nat.exists_eq_succ_of_ne_zero (Nat.pos_iff_ne_zero.mp hfuel)
    simp only [Nat.add_zero] at hfin ⊢
    simp [multidevice_loop, hfin]
  | succ d ih =>
    intro fuel k hfin hfirst htime hfuel
    obtain ⟨f, rfl⟩ := Nat.exists_eq_succ_of_ne_zero
      (Nat.pos_iff_ne_zero.mp (Nat.lt_of_le_of_lt (Nat.zero_le _) hfuel))
    have h0 : fin k = false := by
      have := hfirst 0 (Nat.succ_pos d); simpa using this
    have hnt : ¬ k > timeout := by omega
    simp only [multidevice_loop, h0, Bool.false_eq_true, if_false, hnt]
    have hfin2 : fin (k + 1 + d) = true := by
      have : k + 1 + d = k + (d + 1) := by omega
      rw [this]; exact hfin
    have hfirst2 : ∀ j, j < d → fin (k + 1 + j) = false := by
      intro j hj
      have : k + 1 + j = k + (j + 1) := by omega
      rw [this]; exact hfirst (j + 1) (by omega)
    have := ih f (k + 1) hfin2 hfirst2 (by omega) (by omega)
    rw [this]
    congr 2
    omega

/-- If finished() stays false through check timeout + 1, the
multi-device DAQ loop raises its timeout exception, regardless of what
the module has accumulated. -/
theorem multidevice_loop_timeout (fin : Nat → Bool) (timeout : Nat) :
    ∀ (c k fuel : Nat), k + c = timeout + 1 →
      (∀ j, k ≤ j → j ≤ timeout + 1 → fin j = false) → c + 1 ≤ fuel →
      multidevice_loop fin timeout fuel k =
        some (Except.error multidevice_timeout_msg) := by
  intro c
  induction c with
  | zero =>
    intro k fuel hk hfalse hfuel
    obtain ⟨f, rfl⟩ : ∃ f, fuel = f + 1 := ⟨fuel - 1, by omega⟩
    have h0 : fin k = false := hfalse k (Nat.le_refl k) (by omega)
    have hgt : k > timeout := by omega
    simp [multidevice_loop, h0, hgt]
  | succ c ih =>
    intro k fuel hk hfalse hfuel
    obtain ⟨f, rfl⟩ : ∃ f, fuel = f + 1 := ⟨fuel - 1, by omega⟩
    have h0 : fin k = false := hfalse k (Nat.le_refl k) (by omega)
    have hnt : ¬ k > timeout := by omega
    simp only [multidevice_loop, h0, Bool.false_eq_true, if_false, hnt]
    exact ih (k + 1) f (by omega)
      (fun j hj hj2 => hfalse j (by omega) hj2) (by omega)

/-- If finished() stays false through check timeout + 1, the continuous
DAQ loop raises its timeout exception regardless of the bursts already
accumulated; the data variable at the moment of the raise holds
everything fetched by the intermediate reads. -/
theorem daq_continuous_loop_timeout (fin : Nat → Bool) (bursts : Nat → List Nat)
    (timeout : Nat) :
    ∀ (c k fuel : Nat) (acc : List Nat), k + c = timeout + 1 →
      (∀ j, k ≤ j → j ≤ timeout + 1 → fin j = false) → c + 1 ≤ fuel →
      daq_continuous_loop fin bursts timeout fuel k acc =
        some (ContRes.timeoutRaise daq_continuous_timeout_msg
          (acc ++ ((List.range' k c).map bursts).flatten)) := by
  intro c
  induction c with
  | zero =>
    intro k fuel acc hk hfalse hfuel
    obtain ⟨f, rfl⟩ : ∃ f, fuel = f + 1 := ⟨fuel - 1, by omega⟩
    have h0 : fin k = false := hfalse k (Nat.le_refl k) (by omega)
    have hgt : k > timeout := by omega
    simp [daq_continuous_loop, h0, hgt]
  | succ c ih =>
    intro k fuel acc hk hfalse hfuel
    obtain ⟨f, rfl⟩ : ∃ f, fuel = f + 1 := ⟨fuel - 1, by omega⟩
    have h0 : fin k = false := hfalse k (Nat.le_refl k) (by omega)
    have hnt : ¬ k > timeout := by omega
    simp only [daq_continuous_loop, h0, Bool.false_eq_true, if_false, hnt]
    have := ih (k + 1) f (acc ++ bursts k) (by omega)
      (fun j hj hj2 => hfalse j (by omega) hj2) (by omega)
    rw [this]
    congr 2
    rw [List.range'_succ]
    simp [List.append_assoc]

/-- If finished() first returns true at check k + d before the timeout
has elapsed, the continuous DAQ loop exits normally with everything the
intermediate reads fetched, raising nothing. -/
theorem daq_continuous_loop_first_exit (fin : Nat → Bool)
    (bursts : Nat → List Nat) (timeout : Nat) :
    ∀ (d fuel k : Nat) (acc : List Nat), fin (k + d) = true →
      (∀ j, j < d → fin (k + j) = false) → k + d ≤ timeout → d < fuel →
      daq_continuous_loop fin bursts timeout fuel k acc =
        some (ContRes.finishedOk
          (acc ++ ((List.range' k d).map bursts).flatten)) := by
  intro d
  induction d with
  | zero =>
    intro fuel k acc hfin _ _ hfuel
    obtain ⟨f, rfl⟩ : ∃ f, fuel = f + 1 := ⟨fuel - 1, by omega⟩
    simp only [Nat.add_zero] at hfin
    simp [daq_continuous_loop, hfin]
  | succ d ih =>
    intro fuel k acc hfin hfirst htime hfuel
    obtain ⟨f, rfl⟩ : ∃ f, fuel = f + 1 := ⟨fuel - 1, by omega⟩
    have h0 : fin k = false := by
      have := hfirst 0 (Nat.succ_pos d); simpa using this
    have hnt : ¬ k > timeout := by omega
    simp only [daq_continuous_loop, h0, Bool.false_eq_true, if_false, hnt]
    have hfin2 : fin (k + 1 + d) = true := by
      have : k + 1 + d = k + (d + 1) := by omega
      rw [this]; exact hfin
    have hfirst2 : ∀ j, j < d → fin (k + 1 + j) = false := by
      intro j hj
      have : k + 1 + j = k + (j + 1) := by omega
      rw [this]; exact hfirst (j + 1) (by omega)
    have := ih f (k + 1) (acc ++ bursts k) hfin2 hfirst2 (by omega) (by omega)
    rw [this]
    congr 2
    rw [List.range'_succ]
    simp [List.append_assoc]

/-- If at some tick d before the timeout the scope module reports both
the requested number of records and full progress of the current
segment, the scope loop exits through its while condition (completed),
not through the timeout break. -/
theorem scope_loop_completes (recordsAt : Nat → Nat) (progressAt : Nat → ℚ)
    (num_records timeout d : Nat) (hd : num_records ≤ recordsAt d)
    (hp : (1 : ℚ) ≤ progressAt d) (ht : d + 1 ≤ timeout) :
    ∀ (c k fuel : Nat) (records : Nat) (progress : ℚ), k + c = d →
      c + 2 ≤ fuel →
      ∃ r p, scope_loop recordsAt progressAt num_records timeout fuel k
        records progress = some (ScopeExit.completed r p) := by
  intro c
  induction c with
  | zero =>
    intro k fuel records progress hk hfuel
    obtain ⟨f, rfl⟩ : ∃ f, fuel = f + 1 := ⟨fuel - 1, by omega⟩
    obtain ⟨f2, rfl⟩ : ∃ f2, f = f2 + 1 := ⟨f - 1, by omega⟩
    subst hk
    simp only [Nat.add_zero] at *
    by_cases hcond : records < num_records ∨ progress < 1
    · have hnt : ¬ k + 1 > timeout := by omega
      simp only [scope_loop, hcond, if_true, hnt, if_false]
      have hcond2 : ¬ (recordsAt k < num_records ∨ progressAt k < 1) := by
        push_neg
        exact ⟨hd, hp⟩
      simp only [scope_loop, hcond2, if_false]
      exact ⟨recordsAt k, progressAt k, rfl⟩
    · simp only [scope_loop, hcond, if_false]
      exact ⟨records, progress, rfl⟩
  | succ c ih =>
    intro k fuel records progress hk hfuel
    obtain ⟨f, rfl⟩ : ∃ f, fuel = f + 1 := ⟨fuel - 1, by omega⟩
    by_cases hcond : records < num_records ∨ progress < 1
    · have hnt : ¬ k + 1 > timeout := by omega
      simp only [scope_loop, hcond, if_true, hnt, if_false]
      exact ih (k + 1) f (recordsAt k) (progressAt k) (by omega) (by omega)
    · simp only [scope_loop, hcond, if_false]
      exact ⟨records, progress, rfl⟩

/-- The scope loop has no raise at all: whenever it terminates, its
result is a completed or a timed-out exit, and in both cases the
following read() and finish() calls are reached. -/
theorem scope_loop_no_raise (recordsAt : Nat → Nat) (progressAt : Nat → ℚ)
    (num_records timeout : Nat) :
    ∀ (fuel k : Nat) (records : Nat) (progress : ℚ) (r : ScopeExit),
      scope_loop recordsAt progressAt num_records timeout fuel k records
        progress = some r →
      (∃ a b, r = ScopeExit.completed a b) ∨
        (∃ a b, r = ScopeExit.timedOut a b) := by
  intro fuel
  induction fuel with
  | zero => intro k records progress r h; simp [scope_loop] at h
  | succ f ih =>
    intro k records progress r h
    simp only [scope_loop] at h
    by_cases hcond : records < num_records ∨ progress < 1
    · simp only [hcond, if_true] at h
      by_cases hnt : k + 1 > timeout
      · simp only [hnt, if_true, Option.some.injEq] at h
        exact Or.inr ⟨_, _, h.symm⟩
      · simp only [hnt, if_false] at h
        exact ih _ _ _ _ h
    · simp only [hcond, if_false, Option.some.injEq] at h
      exact Or.inl ⟨_, _, h.symm⟩

/-! ## Helper lemmas about the save-to-file event traces -/

theorem first_idx_append_left (p : SaveEv → Bool) :
    ∀ (l1 l2 : List SaveEv) (i : Nat), first_idx p l1 = some i →
      first_idx p (l1 ++ l2) = some i := by
  intro l1
  induction l1 with
  | nil => intro l2 i h; simp [first_idx] at h
  | cons e rest ih =>
    intro l2 i h
    simp only [first_idx, List.cons_append] at h ⊢
    by_cases he : p e
    · simpa [he] using h
    · simp only [he, Bool.false_eq_true, if_false] at h ⊢
      obtain ⟨j, hj, rfl⟩ := Option.map_eq_some'.mp h
      simp only [List.append_eq]
      rw [ih l2 j hj]
      rfl

theorem first_idx_append_none (p : SaveEv → Bool) :
    ∀ (l1 l2 : List SaveEv), first_idx p l1 = none →
      first_idx p (l1 ++ l2) = (first_idx p l2).map (· + l1.length) := by
  intro l1
  induction l1 with
  | nil => intro l2 _; simp [first_idx]
  | cons e rest ih =>
    intro l2 h
    simp only [first_idx, List.cons_append] at h ⊢
    by_cases he : p e
    · simp [he] at h
    · simp only [he, Bool.false_eq_true, if_false] at h ⊢
      simp only [List.append_eq]
      rw [ih l2 (by cases hr : first_idx p rest with
        | none => rfl
        | some j => rw [hr] at h; simp at h)]
      cases first_idx p l2 with
      | none => rfl
      | some j => simp [List.length_cons]; omega

theorem first_idx_eq_none (p : SaveEv → Bool) :
    ∀ (l : List SaveEv), (∀ e ∈ l, p e = false) → first_idx p l = none := by
  intro l
  induction l with
  | nil => intro _; rfl
  | cons e rest ih =>
    intro h
    simp only [first_idx, h e (List.mem_cons_self e rest), Bool.false_eq_true,
      if_false]
    rw [ih (fun x hx => h x (List.mem_cons_of_mem e hx))]
    rfl

/-- Every trace produced by the save/save polling loop consists only of
pollSave events and contains a poll that returned 0 (at its end). -/
theorem poll_save_flag_spec (flag : Nat → Nat) :
    ∀ (fuel k : Nat) (tr : List SaveEv), poll_save_flag flag fuel k = some tr →
      (∀ e ∈ tr, is_read_event e = false) ∧
        ∃ i, first_idx is_zero_poll tr = some i ∧ i < tr.length := by
  intro fuel
  induction fuel with
  | zero => intro k tr h; simp [poll_save_flag] at h
  | succ f ih =>
    intro k tr h
    simp only [poll_save_flag] at h
    by_cases hz : flag k = 0
    · simp only [hz, if_true] at h
      simp only [Option.some.injEq] at h
      subst h
      refine ⟨?_, 0, ?_, ?_⟩
      · intro e he
        simp at he
        subst he
        rfl
      · simp [first_idx, is_zero_poll]
      · simp
    · simp only [hz, if_false] at h
      obtain ⟨tr2, htr2, rfl⟩ := Option.map_eq_some'.mp h
      obtain ⟨hread, i, hi, hlen⟩ := ih (k + 1) tr2 htr2
      refine ⟨?_, i + 1, ?_, ?_⟩
      · intro e he
        rcases List.mem_cons.mp he with rfl | hmem
        · rfl
        · exact hread e hmem
      · have hnz : is_zero_poll (SaveEv.pollSave (flag k)) = false := by
          simp [is_zero_poll, hz]
        simp only [first_idx, hnz, Bool.false_eq_true, if_false, hi]
        rfl
      · simp only [List.length_cons]
        omega

/-- In the sweeper save branch a poll of save/save that returned 0
always occurs strictly before the read() call. -/
theorem sweeper_trace_zero_before_read (flag : Nat → Nat) (fuel : Nat)
    (tr : List SaveEv) (h : sweeper_save_then_read flag fuel = some tr) :
    zero_poll_before_read tr = true := by
  obtain ⟨polls, hpolls, rfl⟩ := Option.map_eq_some'.mp h
  obtain ⟨hread, i, hi, hlen⟩ := poll_save_flag_spec flag fuel 0 polls hpolls
  have hz1 : first_idx is_zero_poll
      (SaveEv.setSave 1 :: (polls ++ [SaveEv.readData])) = some (i + 1) := by
    have hstep : first_idx is_zero_poll
        (SaveEv.setSave 1 :: (polls ++ [SaveEv.readData])) =
          (first_idx is_zero_poll (polls ++ [SaveEv.readData])).map (· + 1) := rfl
    rw [hstep, first_idx_append_left is_zero_poll polls [SaveEv.readData] i hi]
    rfl
  have hr1 : first_idx is_read_event
      (SaveEv.setSave 1 :: (polls ++ [SaveEv.readData])) =
        some (0 + polls.length + 1) := by
    have hstep : first_idx is_read_event
        (SaveEv.setSave 1 :: (polls ++ [SaveEv.readData])) =
          (first_idx is_read_event (polls ++ [SaveEv.readData])).map (· + 1) := rfl
    rw [hstep, first_idx_append_none is_read_event polls [SaveEv.readData]
      (first_idx_eq_none is_read_event polls hread)]
    rfl
  have hfin : zero_poll_before_read
      (SaveEv.setSave 1 :: (polls ++ [SaveEv.readData])) =
        decide (i + 1 < 0 + polls.length + 1) := by
    unfold zero_poll_before_read
    rw [hz1, hr1]
  rw [hfin]
  simp only [decide_eq_true_eq]
  omega

/-- In the DAQ edge save branch the read() call occurs strictly before
any poll of save/save: the completion wait happens only after read(). -/
theorem edge_trace_read_before_zero (flag : Nat → Nat) (fuel : Nat)
    (tr : List SaveEv) (h : edge_save_then_read flag fuel = some tr) :
    zero_poll_before_read tr = false ∧
      first_idx is_read_event tr = some 1 ∧
      ∃ i, first_idx is_zero_poll tr = some (i + 1 + 1) := by
  obtain ⟨polls, hpolls, rfl⟩ := Option.map_eq_some'.mp h
  obtain ⟨_, i, hi, _⟩ := poll_save_flag_spec flag fuel 0 polls hpolls
  have hz1 : first_idx is_zero_poll
      (SaveEv.setSave 1 :: SaveEv.readData :: polls) = some (i + 1 + 1) := by
    have hstep : first_idx is_zero_poll
        (SaveEv.setSave 1 :: SaveEv.readData :: polls) =
          ((first_idx is_zero_poll polls).map (· + 1)).map (· + 1) := rfl
    rw [hstep, hi]
    rfl
  have hr1 : first_idx is_read_event
      (SaveEv.setSave 1 :: SaveEv.readData :: polls) = some 1 := by
    simp [first_idx, is_read_event]
  refine ⟨?_, hr1, i, hz1⟩
  have hfin : zero_poll_before_read
      (SaveEv.setSave 1 :: SaveEv.readData :: polls) =
        decide (i + 1 + 1 < 1) := by
    unfold zero_poll_before_read
    rw [hz1, hr1]
  rw [hfin]
  simp only [decide_eq_false_iff_not]
  omega

/-! ## Helper lemmas about the scope record flag checks -/

/-- check_scope_record_flags succeeds exactly when every wave of every
record has totalsamples samples; the flag bits never influence
success. -/
theorem check_flags_ok_iff :
    ∀ records : List ScopeRecord,
      (∃ ws, check_scope_record_flags records = Except.ok ws) ↔
        ∀ r ∈ records, ∀ L ∈ r.waveLengths, L = r.totalsamples := by
  intro records
  induction records with
  | nil =>
    simp only [check_scope_record_flags]
    exact ⟨fun _ => by simp, fun _ => ⟨[], rfl⟩⟩
  | cons r rest ih =>
    constructor
    · rintro ⟨ws, hws⟩
      simp only [check_scope_record_flags] at hws
      by_cases hall : r.waveLengths.all (fun L => L = r.totalsamples)
      · simp only [hall, if_true] at hws
        intro x hx
        rcases List.mem_cons.mp hx with rfl | hmem
        · intro L hL
          have := List.all_eq_true.mp hall L hL
          exact of_decide_eq_true this
        · cases hrest : check_scope_record_flags rest with
          | ok ws2 =>
            exact (ih.mp ⟨ws2, hrest⟩) x hmem
          | error e => rw [hrest] at hws; exact absurd hws (by simp)
      · simp only [hall, if_false] at hws
        exact absurd hws (by simp)
    · intro hlen
      have hall : r.waveLengths.all (fun L => L = r.totalsamples) = true := by
        rw [List.all_eq_true]
        intro L hL
        exact decide_eq_true (hlen r (List.mem_cons_self r rest) L hL)
      obtain ⟨ws2, hws2⟩ := ih.mpr
        (fun x hx => hlen x (List.mem_cons_of_mem r hx))
      exact ⟨record_flag_warnings r.flags ++ ws2, by
        simp only [check_scope_record_flags, hall, if_true, hws2]⟩

/-- On success the warnings returned are exactly the per-record flag
warnings, in record order. -/
theorem check_flags_ok_val :
    ∀ (records : List ScopeRecord) (ws : List String),
      check_scope_record_flags records = Except.ok ws →
      ws = (records.map (fun r => record_flag_warnings r.flags)).flatten := by
  intro records
  induction records with
  | nil =>
    intro ws hws
    simp only [check_scope_record_flags, Except.ok.injEq] at hws
    simp [← hws]
  | cons r rest ih =>
    intro ws hws
    simp only [check_scope_record_flags] at hws
    by_cases hall : r.waveLengths.all (fun L => L = r.totalsamples)
    · simp only [hall, if_true] at hws
      cases hrest : check_scope_record_flags rest with
      | ok ws2 =>
        rw [hrest] at hws
        simp only [Except.ok.injEq] at hws
        rw [← hws, ih ws2 hrest]
        simp
      | error e => rw [hrest] at hws; exact absurd hws (by simp)
    · simp only [hall, if_false] at hws
      exact absurd hws (by simp)

/-! ## Claim theorems -/

/-- C7: if no signal path was subscribed on a module before execute(),
read() returns an empty dictionary (spec-modelled vendor behaviour, no
error signaled by the module itself), and the caller-side assertion on
the empty dictionary raises an AssertionError. -/
theorem C7_unsubscribed_read_empty :
    ∀ (path : String) (n : Nat) (collected : List Nat),
      module_read false path collected = [] ∧
      validate_read_data (module_read false path collected) path n =
        Except.error assert_empty_msg :=
  fun _ _ _ => ⟨rfl, rfl⟩

/-- Auxiliary for C9: any positive number of consecutive finish() calls
leaves the module finished without raising, from any phase. -/
theorem run_finishes_ok :
    ∀ (n : Nat) (s : ModPhase),
      run_finishes (n + 1) s = Except.ok ModPhase.finished := by
  intro n
  induction n with
  | zero => intro s; rfl
  | succ m ih => intro s; exact ih ModPhase.finished

/-- C9: calling finish() on an already finished module does not raise
and the module can be re-armed with execute() (spec-modelled module
lifecycle); the Scope Module instance of example_scope.py is executed
and finished three times in one run without error; any repeated
sequence of finish() calls, as issued by the sweeper timeout loop,
never raises; a concrete sweeper loop run issues five forced finish()
calls past its timeout and still exits normally. -/
theorem C9_finish_idempotent_rearm :
    (mod_finish ModPhase.finished = Except.ok ModPhase.finished) ∧
    (mod_execute ModPhase.finished = Except.ok ModPhase.running) ∧
    (apply_commands scope_example_cmds ModPhase.idle =
      Except.ok ModPhase.finished) ∧
    (∀ (n : Nat) (s : ModPhase),
      run_finishes (n + 1) s = Except.ok ModPhase.finished) ∧
    (sweeper_loop c9_fin 3 20 0 0 = some (Except.ok (8, 5))) :=
  ⟨rfl, rfl, rfl, run_finishes_ok, rfl⟩

/-- C10: check_version raises exactly when the documented minimum
version tuple (BUILD defaulting to 0 in the two-component format)
compares lexicographically greater than or equal to the installed
version tuple; in particular an installed version exactly equal to the
documented minimum is rejected. -/
theorem C10_version_check :
    ∀ (version : List Char) (m installed : Nat × Nat × Nat),
      extract_version version = Except.ok m →
      ((check_version version installed = Except.error version_reject_msg) ↔
        tuple_ge m installed = true) ∧
      (check_version version m = Except.error version_reject_msg) ∧
      (∀ a b c d : Char, version = [a, b, '.', c, d] →
        m = (two_digit_val a b, two_digit_val c d, 0)) := by
  intro version m installed hm
  have hrefl : tuple_ge m m = true := by
    obtain ⟨x, y, z⟩ := m
    simp [tuple_ge]
  refine ⟨?_, ?_, ?_⟩
  · constructor
    · intro hchk
      by_cases hge : tuple_ge m installed
      · exact hge
      · simp only [check_version, hm, hge, Bool.false_eq_true, if_false] at hchk
        exact absurd hchk (by simp)
    · intro hge
      simp only [check_version, hm, hge, if_true]
  · simp only [check_version, hm, hrefl, if_true]
  · intro a b c d hv
    subst hv
    by_cases hmm : mm_format [a, b, '.', c, d]
    · simp only [extract_version, hmm, if_true, Except.ok.injEq] at hm
      exact hm.symm
    · simp only [extract_version, hmm, Bool.false_eq_true, if_false] at hm
      by_cases hmmb : mmb_format [a, b, '.', c, d]
      · simp [mmb_format] at hmmb
      · simp only [hmmb, Bool.false_eq_true, if_false] at hm
        exact absurd hm (by simp)

/-- Witness for C10 at the version string 20.02 of the sweeper example
docstring, with the installed version exactly equal to the documented
minimum: the check rejects it. -/
theorem C10_version_check_witness :
    check_version ['2', '0', '.', '0', '2'] (20, 2, 0) =
      Except.error version_reject_msg :=
  (C10_version_check ['2', '0', '.', '0', '2'] (20, 2, 0) (20, 2, 0)
    rfl).2.1

/-- C6: when the post-read validation of the sweeper and DAQ edge
examples succeeds, the list under the subscribed path key has exactly
the configured number of entries (loopcount sweeps, trigger_count
bursts), and whenever the list under the key has any other length the
validation raises an AssertionError. -/
theorem C6_record_count_assertion :
    ∀ (data : List (String × List Nat)) (path : String) (n : Nat),
      (∀ samples, validate_read_data data path n = Except.ok samples →
        samples.length = n ∧ data.lookup path = some samples) ∧
      (∀ samples, data ≠ [] → data.lookup path = some samples →
        samples.length ≠ n →
        validate_read_data data path n = Except.error assert_count_msg) := by
  intro data path n
  constructor
  · intro samples hval
    unfold validate_read_data at hval
    by_cases hemp : data.isEmpty
    · simp [hemp] at hval
    · simp only [hemp, Bool.false_eq_true, if_false] at hval
      cases hlk : data.lookup path with
      | none => rw [hlk] at hval; exact absurd hval (by simp)
      | some s =>
        rw [hlk] at hval
        by_cases hlen : s.length = n
        · simp only [hlen, if_true, Except.ok.injEq] at hval
          subst hval
          exact ⟨hlen, rfl⟩
        · simp [hlen] at hval
  · intro samples hne hlk hlen
    have hemp : data.isEmpty = false := by
      cases data with
      | nil => exact absurd rfl hne
      | cons a l => rfl
    unfold validate_read_data
    simp [hemp, hlk, hlen]

/-- Witness for C6: a result with two sweeps passes validation for a
configured count of two, and fails with the count AssertionError for a
configured count of three. -/
theorem C6_record_count_assertion_witness :
    (List.length [1, 2] = 2 ∧
      [("p", [1, 2])].lookup "p" = some [1, 2]) ∧
    validate_read_data [("p", [1, 2])] "p" 3 =
      Except.error assert_count_msg :=
  ⟨(C6_record_count_assertion [("p", [1, 2])] "p" 2).1 [1, 2] rfl,
   (C6_record_count_assertion [("p", [1, 2])] "p" 3).2 [1, 2]
     (by simp) rfl (by decide)⟩

/-- C8: a set data-integrity flag bit (mask 1 data loss, mask 2 missed
trigger, mask 4 transfer failure) only adds a printed warning; success
or failure of check_scope_record_flags depends exclusively on the wave
sizes, never on the flag bits, so control flow continues unchanged past
any flag warning. -/
theorem C8_flag_bits_warn_only :
    (∀ records : List ScopeRecord,
      (∃ ws, check_scope_record_flags records = Except.ok ws) ↔
        ∀ r ∈ records, ∀ L ∈ r.waveLengths, L = r.totalsamples) ∧
    (∀ (records : List ScopeRecord) (ws : List String),
      check_scope_record_flags records = Except.ok ws →
      ws = (records.map (fun r => record_flag_warnings r.flags)).flatten) ∧
    (∀ flags : Nat,
      (flags &&& 1 ≠ 0 → warn_dataloss ∈ record_flag_warnings flags) ∧
      (flags &&& 2 ≠ 0 → warn_missed_trigger ∈ record_flag_warnings flags) ∧
      (flags &&& 4 ≠ 0 → warn_transfer_failure ∈ record_flag_warnings flags)) := by
  refine ⟨check_flags_ok_iff, check_flags_ok_val, ?_⟩
  intro flags
  refine ⟨?_, ?_, ?_⟩ <;> intro h <;> unfold record_flag_warnings <;>
    rw [if_pos h] <;> simp

/-- Witness for C8: a record with all three flag bits set (flags = 7)
and correctly sized waves passes the check, and each of the three
warnings is produced for it. -/
theorem C8_flag_bits_warn_only_witness :
    (∃ ws, check_scope_record_flags [⟨7, 5, [5, 5]⟩] = Except.ok ws) ∧
    warn_dataloss ∈ record_flag_warnings 7 ∧
    warn_missed_trigger ∈ record_flag_warnings 7 ∧
    warn_transfer_failure ∈ record_flag_warnings 7 :=
  ⟨(C8_flag_bits_warn_only.1 [⟨7, 5, [5, 5]⟩]).mpr (by decide),
   (C8_flag_bits_warn_only.2.2 7).1 (by decide),
   (C8_flag_bits_warn_only.2.2 7).2.1 (by decide),
   (C8_flag_bits_warn_only.2.2 7).2.2 (by decide)⟩

set_option maxRecDepth 10000 in
/-- C1 counterexample: with the timeout of example_sweeper.py elapsed
(finished() stays false through all 300 in-time checks; the module
reports finished only at check 305, after the forced finish requests)
and zero records accumulated, the sweeper poll loop terminates normally
with an ok result after five forced finish() calls: it raises no
exception, contradicting the claim that every poll loop raises a fatal
exception when the timeout elapses with zero records. -/
theorem C1_counterexample :
    sweeper_loop c1_fin sweeper_timeout_ticks 400 0 0 =
      some (Except.ok (305, 5)) := rfl

/-- C1 amended: if the timeout elapses with zero accumulated records,
the script aborts, but the mechanism differs per example: the
multi-device and continuous DAQ loops raise an exception inside the
loop; the sweeper and scope loops exit without raising (the sweeper
loop cannot produce an error at all) and the script then aborts through
the post-read assertions on the empty result. -/
theorem C1_zero_records_abort :
    (∀ (fin : Nat → Bool) (timeout fuel : Nat),
      (∀ j, j ≤ timeout + 1 → fin j = false) → timeout + 2 ≤ fuel →
      multidevice_loop fin timeout fuel 0 =
        some (Except.error multidevice_timeout_msg)) ∧
    (∀ (fin : Nat → Bool) (timeout fuel : Nat),
      (∀ j, j ≤ timeout + 1 → fin j = false) → timeout + 2 ≤ fuel →
      daq_continuous_loop fin (fun _ => []) timeout fuel 0 [] =
        some (ContRes.timeoutRaise daq_continuous_timeout_msg [])) ∧
    (∀ (fin : Nat → Bool) (timeout fuel k nfin : Nat)
        (r : Except String (Nat × Nat)),
      sweeper_loop fin timeout fuel k nfin = some r →
        ∃ v, r = Except.ok v) ∧
    (∀ (path : String) (n : Nat),
      validate_read_data ([] : List (String × List Nat)) path n =
        Except.error assert_empty_msg) ∧
    (∀ path : String,
      scope_assert_wave ([] : List (String × List Nat)) path =
        Except.error scope_assert_msg) := by
  refine ⟨?_, ?_, ?_, ?_, ?_⟩
  · intro fin timeout fuel hfalse hfuel
    exact multidevice_loop_timeout fin timeout (timeout + 1) 0 fuel (by omega)
      (fun j _ hj2 => hfalse j hj2) (by omega)
  · intro fin timeout fuel hfalse hfuel
    have hnil : ∀ l : List Nat,
        ((l.map fun _ => ([] : List Nat)).flatten) = [] := by
      intro l
      induction l with
      | nil => rfl
      | cons a t ih => simp [ih]
    have := daq_continuous_loop_timeout fin (fun _ => []) timeout
      (timeout + 1) 0 fuel [] (by omega) (fun j _ hj2 => hfalse j hj2)
      (by omega)
    rw [this]
    simp [hnil]
  · exact fun fin timeout => sweeper_loop_no_raise fin timeout
  · intro path n
    rfl
  · intro path
    rfl

/-- Witness for C1: concrete timed-out runs of the multi-device and
continuous DAQ loops raise their exceptions, and a concrete terminating
sweeper loop run is a normal exit. -/
theorem C1_zero_records_abort_witness :
    multidevice_loop w_fin_never 2 10 0 =
      some (Except.error multidevice_timeout_msg) ∧
    daq_continuous_loop w_fin_never (fun _ => []) 2 10 0 [] =
      some (ContRes.timeoutRaise daq_continuous_timeout_msg []) ∧
    (∃ v, (Except.ok ((2 : Nat), (0 : Nat)) : Except String (Nat × Nat)) =
      Except.ok v) :=
  ⟨C1_zero_records_abort.1 w_fin_never 2 10 (fun _ _ => rfl) (by omega),
   C1_zero_records_abort.2.1 w_fin_never 2 10 (fun _ _ => rfl) (by omega),
   C1_zero_records_abort.2.2.1 w_fin2 7 9 0 0 (Except.ok (2, 0)) rfl⟩

/-- C2 counterexample: in the continuous DAQ loop one burst (record 7)
has been accumulated by the intermediate reads when the timeout elapses,
yet the loop raises its timeout exception instead of exiting normally,
contradicting the claim that every poll loop exits without raising when
the timeout elapses with at least one record accumulated. -/
theorem C2_counterexample :
    daq_continuous_loop w_fin_never c2_bursts 2 10 0 [] =
      some (ContRes.timeoutRaise daq_continuous_timeout_msg [7]) := by
  decide

/-- C2 amended: on timeout the sweeper loop exits without raising
(whenever it terminates its result is ok) and the caller proceeds to
read(); the continuous DAQ loop instead raises its timeout exception
regardless of how many records were accumulated, the already-fetched
records being retained in the data variable up to the moment of the
raise. -/
theorem C2_timeout_with_records :
    (∀ (fin : Nat → Bool) (timeout fuel k nfin : Nat)
        (r : Except String (Nat × Nat)),
      sweeper_loop fin timeout fuel k nfin = some r →
        ∃ v, r = Except.ok v) ∧
    (∀ (fin : Nat → Bool) (bursts : Nat → List Nat) (timeout fuel : Nat),
      (∀ j, j ≤ timeout + 1 → fin j = false) → timeout + 2 ≤ fuel →
      daq_continuous_loop fin bursts timeout fuel 0 [] =
        some (ContRes.timeoutRaise daq_continuous_timeout_msg
          (acc_up_to bursts (timeout + 1)))) := by
  constructor
  · exact fun fin timeout => sweeper_loop_no_raise fin timeout
  · intro fin bursts timeout fuel hfalse hfuel
    have := daq_continuous_loop_timeout fin bursts timeout (timeout + 1) 0
      fuel [] (by omega) (fun j _ hj2 => hfalse j hj2) (by omega)
    rw [this]
    simp [acc_up_to, List.range_eq_range']

/-- Witness for C2: a concrete terminating sweeper loop run is a normal
exit, and a concrete timed-out continuous DAQ run raises while holding
the bursts accumulated so far. -/
theorem C2_timeout_with_records_witness :
    (∃ v, (Except.ok ((3 : Nat), (0 : Nat)) : Except String (Nat × Nat)) =
      Except.ok v) ∧
    daq_continuous_loop w_fin_never w_bursts 2 10 0 [] =
      some (ContRes.timeoutRaise daq_continuous_timeout_msg
        (acc_up_to w_bursts 3)) :=
  ⟨C2_timeout_with_records.1 w_fin3 20 6 0 0 (Except.ok (3, 0)) rfl,
   C2_timeout_with_records.2 w_fin_never w_bursts 2 10
     (fun _ _ => rfl) (by omega)⟩

/-- C3: whenever the module reports completion before the timeout
elapses (finished() in the sweeper, multi-device and continuous DAQ
loops; requested record count together with full segment progress in
the scope loop), the poll loop terminates and no exception is raised on
that path. -/
theorem C3_finish_before_timeout :
    (∀ (fin : Nat → Bool) (timeout d fuel : Nat),
      fin d = true → (∀ j, j < d → fin j = false) → d ≤ timeout →
      d < fuel →
      ∃ nf, sweeper_loop fin timeout fuel 0 0 =
        some (Except.ok (d, nf))) ∧
    (∀ (fin : Nat → Bool) (timeout d fuel : Nat),
      fin d = true → (∀ j, j < d → fin j = false) → d ≤ timeout →
      d < fuel →
      multidevice_loop fin timeout fuel 0 = some (Except.ok d)) ∧
    (∀ (fin : Nat → Bool) (bursts : Nat → List Nat) (timeout d fuel : Nat),
      fin d = true → (∀ j, j < d → fin j = false) → d ≤ timeout →
      d < fuel →
      daq_continuous_loop fin bursts timeout fuel 0 [] =
        some (ContRes.finishedOk (acc_up_to bursts d))) ∧
    (∀ (recordsAt : Nat → Nat) (progressAt : Nat → ℚ)
        (num_records timeout d fuel : Nat),
      num_records ≤ recordsAt d → (1 : ℚ) ≤ progressAt d →
      d + 1 ≤ timeout → d + 2 ≤ fuel →
      ∃ r p, scope_loop recordsAt progressAt num_records timeout fuel 0 0 0 =
        some (ScopeExit.completed r p)) := by
  refine ⟨?_, ?_, ?_, ?_⟩
  · intro fin timeout d fuel hfin hfirst _ hfuel
    obtain ⟨nf, hnf⟩ := sweeper_loop_first_exit fin timeout d fuel 0 0
      (by simpa using hfin) (fun j hj => by simpa using hfirst j hj) hfuel
    exact ⟨nf, by simpa using hnf⟩
  · intro fin timeout d fuel hfin hfirst htime hfuel
    have := multidevice_loop_first_exit fin timeout d fuel 0
      (by simpa using hfin) (fun j hj => by simpa using hfirst j hj)
      (by omega) hfuel
    simpa using this
  · intro fin bursts timeout d fuel hfin hfirst htime hfuel
    have := daq_continuous_loop_first_exit fin bursts timeout d fuel 0 []
      (by simpa using hfin) (fun j hj => by simpa using hfirst j hj)
      (by omega) hfuel
    rw [this]
    simp [acc_up_to, List.range_eq_range']
  · intro recordsAt progressAt num_records timeout d fuel hd hp ht hfuel
    exact scope_loop_completes recordsAt progressAt num_records timeout d
      hd hp ht d 0 fuel 0 0 (by omega) hfuel

/-- Witness for C3: concrete runs of all four loops with completion
reported at an early check all terminate normally. -/
theorem C3_finish_before_timeout_witness :
    (∃ nf, sweeper_loop w_fin2 10 5 0 0 = some (Except.ok (2, nf))) ∧
    multidevice_loop w_fin2 10 5 0 = some (Except.ok 2) ∧
    daq_continuous_loop w_fin2 w_bursts 10 5 0 [] =
      some (ContRes.finishedOk (acc_up_to w_bursts 2)) ∧
    (∃ r p, scope_loop w_records w_progress 2 10 5 0 0 0 =
      some (ScopeExit.completed r p)) :=
  ⟨C3_finish_before_timeout.1 w_fin2 10 2 5 (by decide) (by decide)
     (by omega) (by omega),
   C3_finish_before_timeout.2.1 w_fin2 10 2 5 (by decide) (by decide)
     (by omega) (by omega),
   C3_finish_before_timeout.2.2.1 w_fin2 w_bursts 10 2 5 (by decide)
     (by decide) (by omega) (by omega),
   C3_finish_before_timeout.2.2.2 w_records w_progress 2 10 1 5
     (by decide) (by decide) (by omega) (by omega)⟩

/-- C4 counterexample: the scope module reports the requested record
count (one record, reported from the very first read on) while the
progress of the current segment stays at one half; the scope loop does
not exit when the target count is reached but keeps polling until the
timeout break, contradicting the claim that reaching the target alone
suffices to exit the loop. -/
theorem C4_counterexample :
    scope_loop c4_records c4_progress 1 scope_timeout_ticks 100 0 0 0 =
      some (ScopeExit.timedOut 1 (mkRat 1 2)) ∧
    1 ≤ c4_records 0 := by
  constructor
  · decide
  · decide

/-- C4 amended: every poll loop sleeps a fixed interval, re-reads the
module state and exits as soon as its exit condition holds or the
timeout elapses, but the scope loop exit condition requires both the
target record count and full progress of the current segment (the
target count alone does not end the loop), whereas the sweeper,
multi-device and continuous DAQ loops exit as soon as finished() is
true, and the timeout ends each loop (break in the scope loop, raise in
the multi-device and continuous DAQ loops). -/
theorem C4_loop_exit_structure :
    (∀ (rA : Nat → Nat) (pA : Nat → ℚ) (num timeout fuel k records : Nat)
        (p : ℚ),
      ¬(records < num ∨ p < 1) →
      scope_loop rA pA num timeout (fuel + 1) k records p =
        some (ScopeExit.completed records p)) ∧
    (∀ (rA : Nat → Nat) (pA : Nat → ℚ) (num timeout fuel k records : Nat)
        (p : ℚ),
      num ≤ records → p < 1 → k + 1 ≤ timeout →
      scope_loop rA pA num timeout (fuel + 1) k records p =
        scope_loop rA pA num timeout fuel (k + 1) (rA k) (pA k)) ∧
    (∀ (rA : Nat → Nat) (pA : Nat → ℚ) (num timeout fuel k records : Nat)
        (p : ℚ),
      (records < num ∨ p < 1) → k + 1 > timeout →
      scope_loop rA pA num timeout (fuel + 1) k records p =
        some (ScopeExit.timedOut (rA k) (pA k))) ∧
    (∀ (fin : Nat → Bool) (timeout fuel k n : Nat),
      fin k = true →
      sweeper_loop fin timeout (fuel + 1) k n =
        some (Except.ok (k, n))) ∧
    (∀ (fin : Nat → Bool) (timeout fuel k : Nat),
      fin k = true →
      multidevice_loop fin timeout (fuel + 1) k = some (Except.ok k)) ∧
    (∀ (fin : Nat → Bool) (timeout fuel k : Nat),
      fin k = false → k > timeout →
      multidevice_loop fin timeout (fuel + 1) k =
        some (Except.error multidevice_timeout_msg)) ∧
    (∀ (fin : Nat → Bool) (bursts : Nat → List Nat) (timeout fuel k : Nat)
        (acc : List Nat),
      fin k = true →
      daq_continuous_loop fin bursts timeout (fuel + 1) k acc =
        some (ContRes.finishedOk acc)) ∧
    (∀ (fin : Nat → Bool) (bursts : Nat → List Nat) (timeout fuel k : Nat)
        (acc : List Nat),
      fin k = false → k > timeout →
      daq_continuous_loop fin bursts timeout (fuel + 1) k acc =
        some (ContRes.timeoutRaise daq_continuous_timeout_msg acc)) := by
  refine ⟨?_, ?_, ?_, ?_, ?_, ?_, ?_, ?_⟩
  · intro rA pA num timeout fuel k records p hcond
    simp only [scope_loop, hcond, if_false]
  · intro rA pA num timeout fuel k records p hr hp ht
    have hcond : records < num ∨ p < 1 := Or.inr hp
    have hnt : ¬ k + 1 > timeout := by omega
    simp only [scope_loop, hcond, if_true, hnt, if_false]
  · intro rA pA num timeout fuel k records p hcond ht
    simp only [scope_loop, hcond, if_true, ht, if_true]
  · intro fin timeout fuel k n hfin
    simp only [sweeper_loop, hfin, if_true]
  · intro fin timeout fuel k hfin
    simp only [multidevice_loop, hfin, if_true]
  · intro fin timeout fuel k hfin ht
    simp only [multidevice_loop, hfin, Bool.false_eq_true, if_false, ht,
      if_true]
  · intro fin bursts timeout fuel k acc hfin
    simp only [daq_continuous_loop, hfin, if_true]
  · intro fin bursts timeout fuel k acc hfin ht
    simp only [daq_continuous_loop, hfin, Bool.false_eq_true, if_false, ht,
      if_true]

/-- Witness for C4: each exit and continuation rule evaluated at a
concrete loop state. -/
theorem C4_loop_exit_structure_witness :
    scope_loop w_records w_progress 1 10 4 2 2 1 =
      some (ScopeExit.completed 2 1) ∧
    scope_loop w_records w_progress 1 10 4 0 1 (mkRat 1 2) =
      scope_loop w_records w_progress 1 10 3 1 (w_records 0)
        (w_progress 0) ∧
    scope_loop w_records w_progress 3 10 4 10 1 1 =
      some (ScopeExit.timedOut (w_records 10) (w_progress 10)) ∧
    sweeper_loop w_fin2 5 4 2 0 = some (Except.ok (2, 0)) ∧
    multidevice_loop w_fin2 5 4 2 = some (Except.ok 2) ∧
    multidevice_loop w_fin_never 5 4 6 =
      some (Except.error multidevice_timeout_msg) ∧
    daq_continuous_loop w_fin2 w_bursts 5 4 2 [0, 1] =
      some (ContRes.finishedOk [0, 1]) ∧
    daq_continuous_loop w_fin_never w_bursts 5 4 6 [0, 1] =
      some (ContRes.timeoutRaise daq_continuous_timeout_msg [0, 1]) :=
  ⟨C4_loop_exit_structure.1 w_records w_progress 1 10 3 2 2 1 (by decide),
   C4_loop_exit_structure.2.1 w_records w_progress 1 10 3 0 1
     (mkRat 1 2) (by decide) (by decide) (by omega),
   C4_loop_exit_structure.2.2.1 w_records w_progress 3 10 3 10 1 1
     (by decide) (by omega),
   C4_loop_exit_structure.2.2.2.1 w_fin2 5 3 2 0 (by decide),
   C4_loop_exit_structure.2.2.2.2.1 w_fin2 5 3 2 (by decide),
   C4_loop_exit_structure.2.2.2.2.2.1 w_fin_never 5 3 6 rfl (by omega),
   C4_loop_exit_structure.2.2.2.2.2.2.1 w_fin2 w_bursts 5 3 2 [0, 1]
     (by decide),
   C4_loop_exit_structure.2.2.2.2.2.2.2 w_fin_never w_bursts 5 3 6 [0, 1]
     rfl (by omega)⟩

/-- C5 counterexample: in the DAQ edge example trace under a flag
oracle that reports the save incomplete once and complete afterwards,
the read() call occurs before any poll of save/save returned 0: the
save-completion flag is not polled to zero before read(),
contradicting the claim that every saving script polls the flag to zero
strictly before read(). -/
theorem C5_counterexample :
    edge_save_then_read c5_flag 5 =
      some [SaveEv.setSave 1, SaveEv.readData, SaveEv.pollSave 1,
        SaveEv.pollSave 0] ∧
    zero_poll_before_read
      [SaveEv.setSave 1, SaveEv.readData, SaveEv.pollSave 1,
        SaveEv.pollSave 0] = false := by
  constructor
  · decide
  · decide

/-- C5 amended: the sweeper save branch polls save/save until it
returns 0 strictly before read(); the DAQ edge example requests the
save before read() but polls the completion flag only after read()
(its read event sits at index 1, before every poll); the spec-modelled
completion flag transitions monotonically from 1 to 0 and never
returns to 1 without a new save request. -/
theorem C5_save_poll_order :
    (∀ (flag : Nat → Nat) (fuel : Nat) (tr : List SaveEv),
      sweeper_save_then_read flag fuel = some tr →
      zero_poll_before_read tr = true) ∧
    (∀ (flag : Nat → Nat) (fuel : Nat) (tr : List SaveEv),
      edge_save_then_read flag fuel = some tr →
      zero_poll_before_read tr = false ∧
        first_idx is_read_event tr = some 1) ∧
    (∀ c t t2 : Nat, t ≤ t2 → save_flag_model c t = 0 →
      save_flag_model c t2 = 0) := by
  refine ⟨sweeper_trace_zero_before_read, ?_, ?_⟩
  · intro flag fuel tr h
    have hedge := edge_trace_read_before_zero flag fuel tr h
    exact ⟨hedge.1, hedge.2.1⟩
  · intro c t t2 hle h
    unfold save_flag_model at *
    by_cases hc : t < c
    · simp [hc] at h
    · have hc2 : ¬ t2 < c := by omega
      simp [hc2]

/-- Witness for C5: the sweeper trace under the modelled flag has its
zero poll before the read, the edge trace under the same flag has its
read before every poll, and the modelled flag stays 0 once it reached
0. -/
theorem C5_save_poll_order_witness :
    zero_poll_before_read
      [SaveEv.setSave 1, SaveEv.pollSave 1, SaveEv.pollSave 1,
        SaveEv.pollSave 0, SaveEv.readData] = true ∧
    (zero_poll_before_read
      [SaveEv.setSave 1, SaveEv.readData, SaveEv.pollSave 1,
        SaveEv.pollSave 1, SaveEv.pollSave 0] = false ∧
      first_idx is_read_event
        [SaveEv.setSave 1, SaveEv.readData, SaveEv.pollSave 1,
          SaveEv.pollSave 1, SaveEv.pollSave 0] = some 1) ∧
    save_flag_model 2 5 = 0 :=
  ⟨C5_save_poll_order.1 w_flag 5
     [SaveEv.setSave 1, SaveEv.pollSave 1, SaveEv.pollSave 1,
       SaveEv.pollSave 0, SaveEv.readData] (by decide),
   C5_save_poll_order.2.1 w_flag 4
     [SaveEv.setSave 1, SaveEv.readData, SaveEv.pollSave 1,
       SaveEv.pollSave 1, SaveEv.pollSave 0] (by decide),
   C5_save_poll_order.2.2 2 3 5 (by omega) (by decide)⟩

end LabOneExamples
